import Mathlib

/-!
Shallow embedding of `src/scripts/monitor.js`, a unified system-monitoring
script with a classic mode and an AI-enhanced mode.

Modelling conventions:
- JavaScript numbers that matter to the logic (percentages, thresholds) are
  rationals; `Math.random()` is modelled as an abstract stream `r : Nat → ℚ`
  of draws, assumed in `[0,1)` where a claim needs it, consumed in the exact
  order the source calls `Math.random()`.
- A JS object field that is sometimes absent is an `Option`; JS truthiness on
  such a field (`undefined` and `false` are falsy) is the `truthy` function.
- `baseConfig[ENV]` is a JS bracket lookup and therefore consults the
  prototype chain: an own key yields a config object, a key naming an
  inherited `Object.prototype` member (`constructor`, `toString`,
  `__proto__`, ...) yields that inherited truthy value whose config fields
  all read as `undefined`, and any other key yields `undefined` itself. The
  subsequent `config.interval` dereference at startup then runs normally,
  runs with `undefined` settings, or throws a TypeError, respectively; the
  three-way `StartupOutcome` captures this.
- Each tick of `checkSystemHealth` is embedded as a pure function from the
  random stream and the configuration to a `TickTrace` recording the
  structured facts the console output reveals: the per-provider entries, the
  resource sample, which threshold each evaluation compared against, the
  alert status, the forecast, and the emitted breach events.
-/

namespace Monitor

/-- JS truthiness of a possibly-absent boolean field: `undefined` and
`false` are falsy, `true` is truthy. -/
def truthy : Option Bool → Bool
  | some b => b
  | none => false

/-- The configuration object selected at startup. Fields present only in one
of the three JS config literals are `Option`s (absent = `undefined`). -/
structure MonitorConfig where
  interval : ℕ
  alertThreshold : ℚ
  debugMode : Option Bool
  verboseLogging : Option Bool
  metricsEndpoint : Option String
  aiEnabled : Option Bool
  mlModelPath : Option String
  cloudProviders : Option (List String)
  predictiveWindow : Option ℕ
deriving Repr, DecidableEq

/-- `baseConfig.production` from the source. -/
def productionConfig : MonitorConfig :=
  { interval := 60000
    alertThreshold := 80
    debugMode := some false
    verboseLogging := none
    metricsEndpoint := none
    aiEnabled := none
    mlModelPath := none
    cloudProviders := none
    predictiveWindow := none }

/-- `baseConfig.development` from the source. -/
def developmentConfig : MonitorConfig :=
  { interval := 5000
    alertThreshold := 90
    debugMode := some true
    verboseLogging := some true
    metricsEndpoint := none
    aiEnabled := none
    mlModelPath := none
    cloudProviders := none
    predictiveWindow := none }

/-- The `aiConfig` literal from the source. -/
def aiConfig : MonitorConfig :=
  { interval := 30000
    alertThreshold := 75
    debugMode := none
    verboseLogging := none
    metricsEndpoint := some "http://localhost:9000/metrics"
    aiEnabled := some true
    mlModelPath := some "./models/anomaly-detection.h5"
    cloudProviders := some ["aws", "azure", "gcp"]
    predictiveWindow := some 300 }

/-- Result of a JS bracket lookup on the `baseConfig` object literal: an
own key yields one of the two config objects; a key naming an inherited
string-keyed member of `Object.prototype` yields that inherited truthy
function or object, every config field of which reads as `undefined`; any
other key yields `undefined` itself. -/
inductive JsLookup where
  | own (cfg : MonitorConfig)
  | proto
  | undef
deriving Repr, DecidableEq

/-- The string-keyed members every plain object literal inherits from
`Object.prototype`: bracket lookup on `baseConfig` finds these on the
prototype chain when no own key matches. -/
def objectPrototypeKeys : List String :=
  ["constructor", "hasOwnProperty", "isPrototypeOf", "propertyIsEnumerable",
   "toLocaleString", "toString", "valueOf", "__proto__", "__defineGetter__",
   "__defineSetter__", "__lookupGetter__", "__lookupSetter__"]

/-- Property lookup `baseConfig[env]`: the own keys `production` and
`development` are consulted first, then the prototype chain
(`Object.prototype` members), and every other key yields `undefined`. -/
def baseConfig (env : String) : JsLookup :=
  if env = "production" then JsLookup.own productionConfig
  else if env = "development" then JsLookup.own developmentConfig
  else if env ∈ objectPrototypeKeys then JsLookup.proto
  else JsLookup.undef

/-- `const ENV = process.env.NODE_ENV || "production"`: the fallback fires
only when the variable is unset or the empty string (JS falsy). -/
def resolveEnv : Option String → String
  | none => "production"
  | some s => if s = "" then "production" else s

/-- `const config = AI_MODE ? aiConfig : baseConfig[ENV]`. -/
def selectConfig (nodeEnv : Option String) (aiMode : Bool) : JsLookup :=
  if aiMode then JsLookup.own aiConfig else baseConfig (resolveEnv nodeEnv)

/-- The error the process raises when startup dereferences
`config.interval` while `config` is `undefined`. -/
def jsUndefinedAccessError : String :=
  "TypeError: cannot read properties of undefined (reading interval)"

/-- How the process comes up, decided by the first dereference of `config`
(`config.interval` in the startup log line): with a config object it runs
normally; with a value inherited from `Object.prototype` the field reads
are merely `undefined`, so the log prints `undefined`, `setInterval` falls
back to its default delay and the process still starts, in basic mode with
no debug lines; with `undefined` itself the dereference throws a TypeError
and the process never starts its timers. -/
inductive StartupOutcome where
  | runs (cfg : MonitorConfig)
  | runsDegraded
  | crash (msg : String)
deriving Repr, DecidableEq

/-- Process startup as a function of the environment inputs. -/
def startup (nodeEnv : Option String) (aiMode : Bool) : StartupOutcome :=
  match selectConfig nodeEnv aiMode with
  | JsLookup.own cfg => StartupOutcome.runs cfg
  | JsLookup.proto => StartupOutcome.runsDegraded
  | JsLookup.undef => StartupOutcome.crash jsUndefinedAccessError

/-- Result of the threshold evaluation in `monitorAIHealth`. -/
inductive EvalStatus where
  | ALERT
  | OPTIMAL
deriving Repr, DecidableEq

/-- Kinds of breach events a tick can emit. -/
inductive EventKind where
  | THRESHOLD_BREACH
  | PREDICTIVE_BREACH
deriving Repr, DecidableEq

/-- `Math.max(cpu, memory, disk)`. -/
def maxUsage (cpu memory disk : ℚ) : ℚ :=
  max cpu (max memory disk)

/-- The threshold comparison of `monitorAIHealth`:
`if (maxUsage > config.alertThreshold)` alert, else optimal. -/
def evaluate (cpu memory disk threshold : ℚ) : EvalStatus :=
  if maxUsage cpu memory disk > threshold then EvalStatus.ALERT else EvalStatus.OPTIMAL

/-- One per-cloud status line: `Math.floor(Math.random() * 10 + 5)`
instances, `Math.random() * 100` load, healthy iff `Math.random() > 0.1`.
The three draws for provider number `i` are `r (3*i)`, `r (3*i+1)`,
`r (3*i+2)` in source order. -/
structure ProviderStatus where
  name : String
  instances : ℤ
  load : ℚ
  healthy : Bool
deriving Repr, DecidableEq

/-- The per-provider sample for the provider at position `i` of the
`cloudProviders` list. -/
def providerStatus (r : ℕ → ℚ) (i : ℕ) (name : String) : ProviderStatus :=
  { name := name
    instances := ⌊r (3 * i) * 10 + 5⌋
    load := r (3 * i + 1) * 100
    healthy := decide (r (3 * i + 2) > 1 / 10) }

/-- `config.cloudProviders.forEach(...)`: one status per provider, in list
order, consuming three random draws each; `i` is the position of the head of
`names` in the original list. -/
def sampleProviders (r : ℕ → ℚ) : ℕ → List String → List ProviderStatus
  | _, [] => []
  | i, name :: rest => providerStatus r i name :: sampleProviders r (i + 1) rest

/-- The cpu/memory/disk readings drawn after the provider loop. -/
structure ResourceSample where
  cpu : ℚ
  memory : ℚ
  disk : ℚ
deriving Repr, DecidableEq

/-- The `prediction` object of `predictFutureMetrics`. -/
structure Forecast where
  cpu : ℚ
  memory : ℚ
  traffic : ℚ
  confidence : ℚ
deriving Repr, DecidableEq

/-- The predictive alert check of `predictFutureMetrics`:
`if (prediction.cpu > config.alertThreshold)`. Only the forecast cpu is
consulted. -/
def predictiveBreach (p : Forecast) (threshold : ℚ) : Bool :=
  decide (p.cpu > threshold)

/-- `predictFutureMetrics`: draws cpu, memory, traffic and confidence in
source order starting at draw index `base`, and reports whether the
predictive alert fired. The printed confidence is
`Math.random() * 30 + 70` (its `toFixed(2)` rendering is presentation
only). -/
def predictFutureMetrics (r : ℕ → ℚ) (base : ℕ) (cfg : MonitorConfig) : Forecast × Bool :=
  let p : Forecast :=
    { cpu := r base * 100
      memory := r (base + 1) * 100
      traffic := r (base + 2) * 1000
      confidence := r (base + 3) * 30 + 70 }
  (p, predictiveBreach p cfg.alertThreshold)

/-- Structured record of what one tick of `checkSystemHealth` did: which
data it sampled, which threshold each evaluation compared against, and which
events it emitted. Fields are `none` when the tick performed no such step. -/
structure TickTrace where
  statusLine : String
  perProvider : List ProviderStatus
  sample : Option ResourceSample
  evalThreshold : Option ℚ
  evalStatus : Option EvalStatus
  autoScaling : Bool
  forecast : Option Forecast
  predictiveThreshold : Option ℚ
  events : List EventKind
deriving Repr, DecidableEq

/-- The resource sample drawn by `monitorAIHealth` after the provider loop:
with `k` providers the loop consumed draws `0 .. 3*k-1`, so cpu, memory and
disk are draws `3*k`, `3*k+1`, `3*k+2`. -/
def tickSample (r : ℕ → ℚ) (cfg : MonitorConfig) : ResourceSample :=
  { cpu := r (3 * (cfg.cloudProviders.getD []).length) * 100
    memory := r (3 * (cfg.cloudProviders.getD []).length + 1) * 100
    disk := r (3 * (cfg.cloudProviders.getD []).length + 2) * 100 }

/-- The forecast produced by the `predictFutureMetrics` call at the end of
`monitorAIHealth`: its four draws start right after the disk draw. -/
def tickForecast (r : ℕ → ℚ) (cfg : MonitorConfig) : Forecast :=
  (predictFutureMetrics r (3 * (cfg.cloudProviders.getD []).length + 3) cfg).1

/-- `monitorAIHealth`: per-provider statuses, a fresh resource sample, the
strict threshold evaluation (alert line plus auto-scaling line in the alert
branch), then `predictFutureMetrics`. -/
def monitorAIHealth (r : ℕ → ℚ) (cfg : MonitorConfig) : TickTrace :=
  let s := tickSample r cfg
  let st := evaluate s.cpu s.memory s.disk cfg.alertThreshold
  let fb := predictFutureMetrics r (3 * (cfg.cloudProviders.getD []).length + 3) cfg
  { statusLine := if st = EvalStatus.ALERT then "ALERT" else "OPTIMAL"
    perProvider := sampleProviders r 0 (cfg.cloudProviders.getD [])
    sample := some s
    evalThreshold := some cfg.alertThreshold
    evalStatus := some st
    autoScaling := decide (st = EvalStatus.ALERT)
    forecast := some fb.1
    predictiveThreshold := some cfg.alertThreshold
    events :=
      (if st = EvalStatus.ALERT then [EventKind.THRESHOLD_BREACH] else []) ++
      (if fb.2 = true then [EventKind.PREDICTIVE_BREACH] else []) }

/-- `monitorBasicHealth`: fixed Normal/Adequate lines, optional debug lines,
always the HEALTHY status line; no sampling, no evaluation, no events. -/
def monitorBasicHealth (_cfg : MonitorConfig) : TickTrace :=
  { statusLine := "HEALTHY"
    perProvider := []
    sample := none
    evalThreshold := none
    evalStatus := none
    autoScaling := false
    forecast := none
    predictiveThreshold := none
    events := [] }

/-- The console lines of one `monitorBasicHealth` call, in order. Only the
timestamp and the `config.debugMode` flag influence them. -/
def monitorBasicHealthLines (timestamp : String) (cfg : MonitorConfig) : List String :=
  ("[" ++ timestamp ++ "] === BASIC HEALTH CHECK ===") ::
  "CPU usage: Normal" ::
  "Memory usage: Normal" ::
  "Disk space: Adequate" ::
  ((if truthy cfg.debugMode then ["Hot reload: Active", "Debug port: 9229"] else []) ++
    ["System Status: HEALTHY"])

/-- `checkSystemHealth`: dispatch on `AI_MODE`. -/
def checkSystemHealth (aiMode : Bool) (r : ℕ → ℚ) (cfg : MonitorConfig) : TickTrace :=
  if aiMode then monitorAIHealth r cfg else monitorBasicHealth cfg

/-- The `n`-th firing time of a `setInterval(f, period)` timer armed at time
0: the first callback runs one full period after arming. -/
def setIntervalFire (period : ℕ) (n : ℕ) : ℕ :=
  (n + 1) * period

/-- Time of the `n`-th health-check tick: tick 0 is the eager direct call to
`checkSystemHealth()` at time 0, tick `n+1` is the `n`-th firing of the
interval timer, so tick `n` happens at `n * config.interval`. -/
def tickTime (cfg : MonitorConfig) (n : ℕ) : ℕ :=
  n * cfg.interval

/-- Guard of the background retraining block:
`if (AI_MODE && config.aiEnabled)`. -/
def retrainArmed (aiMode : Bool) (cfg : MonitorConfig) : Bool :=
  aiMode && truthy cfg.aiEnabled

/-- Firing times of the retrain timer: `setInterval(..., 120000)`. -/
def retrainFire (n : ℕ) : ℕ :=
  setIntervalFire 120000 n

/-- The first `n` ticks of a run: tick `i` consumes its own random stream
`rs i` but always reads the one configuration resolved at startup. -/
def runTrace (aiMode : Bool) (rs : ℕ → ℕ → ℚ) (cfg : MonitorConfig) (n : ℕ) : List TickTrace :=
  (List.range n).map (fun i => checkSystemHealth aiMode (rs i) cfg)

/-- A concrete random stream with every draw `1/2`, for witnesses. -/
def halfStream : ℕ → ℚ := fun _ => 1 / 2

/-- A concrete random stream with every draw `3/4`: against the AI
threshold of 75 every sampled percentage equals the threshold exactly. -/
def threeQuarterStream : ℕ → ℚ := fun _ => 3 / 4

/-! ## Helper lemmas -/

theorem sampleProviders_length (r : ℕ → ℚ) (j : ℕ) (names : List String) :
    (sampleProviders r j names).length = names.length := by
  induction names generalizing j with
  | nil => rfl
  | cons name rest ih => simp [sampleProviders, ih]

theorem sampleProviders_get? (r : ℕ → ℚ) (j i : ℕ) (names : List String) :
    (sampleProviders r j names).get? i = (names.get? i).map (providerStatus r (j + i)) := by
  induction names generalizing i j with
  | nil => simp [sampleProviders]
  | cons name rest ih =>
    cases i with
    | zero => simp [sampleProviders]
    | succ i =>
      simp only [sampleProviders, List.get?]
      rw [ih]
      have : j + 1 + i = j + (i + 1) := by omega
      rw [this]

/-! ## Claims -/

/-- Claim C1: for every sample, `monitorAIHealth` reports ALERT and emits
the auto-scaling trigger exactly when the maximum of cpu, memory and disk is
strictly greater than `config.alertThreshold`; when the maximum equals the
threshold exactly, the status is OPTIMAL (strict comparison). -/
theorem c1_alert_iff_max_above_threshold (r : ℕ → ℚ) (cfg : MonitorConfig) :
    ((monitorAIHealth r cfg).evalStatus = some EvalStatus.ALERT ∧
        (monitorAIHealth r cfg).autoScaling = true ↔
      maxUsage (tickSample r cfg).cpu (tickSample r cfg).memory (tickSample r cfg).disk >
        cfg.alertThreshold) ∧
    (maxUsage (tickSample r cfg).cpu (tickSample r cfg).memory (tickSample r cfg).disk =
        cfg.alertThreshold →
      (monitorAIHealth r cfg).evalStatus = some EvalStatus.OPTIMAL ∧
        (monitorAIHealth r cfg).autoScaling = false) := by
  constructor
  · simp only [monitorAIHealth, evaluate]
    split
    · simp_all
    · simp_all
  · intro h
    simp only [monitorAIHealth, evaluate, h, gt_iff_lt, lt_irrefl, if_false]
    simp

/-- Claim C1 witness: with every draw `3/4` under the AI profile the sampled
maximum is exactly the threshold 75 and the tick reports OPTIMAL with no
auto-scaling. -/
theorem c1_witness :
    (monitorAIHealth threeQuarterStream aiConfig).evalStatus = some EvalStatus.OPTIMAL ∧
      (monitorAIHealth threeQuarterStream aiConfig).autoScaling = false :=
  (c1_alert_iff_max_above_threshold threeQuarterStream aiConfig).2
    (by norm_num [maxUsage, tickSample, threeQuarterStream, aiConfig])

/-- Claim C2 counterexample: for the unknown mode `staging` with AI
disabled, the code does not fall back to the production profile: the config
lookup yields `undefined` and startup throws a TypeError instead of
running normally. -/
theorem c2_counterexample :
    selectConfig (some "staging") false = JsLookup.undef ∧
      startup (some "staging") false = StartupOutcome.crash jsUndefinedAccessError ∧
      startup (some "staging") false ≠ StartupOutcome.runs productionConfig :=
  ⟨rfl, rfl, by simp [startup, selectConfig, baseConfig, resolveEnv, objectPrototypeKeys]⟩

/-- Claim C2 amended: no mode string outside production and development
falls back to the production profile; the fallback fires only when the
mode is missing or the empty string. For such an unknown mode with AI
disabled, when the string names an inherited `Object.prototype` member the
lookup returns that inherited value, every config field reads as
`undefined`, and the process starts without error but degraded (not on the
production profile); for every other unknown string the lookup yields
`undefined` and startup throws a TypeError, so the process does not
start. -/
theorem c2_unknown_mode_no_production_fallback (m : String)
    (h1 : m ≠ "production") (h2 : m ≠ "development") (h3 : m ≠ "") :
    startup (some m) false ≠ StartupOutcome.runs productionConfig ∧
      (m ∈ objectPrototypeKeys → startup (some m) false = StartupOutcome.runsDegraded) ∧
      (m ∉ objectPrototypeKeys →
        startup (some m) false = StartupOutcome.crash jsUndefinedAccessError) ∧
      startup none false = StartupOutcome.runs productionConfig ∧
      startup (some "") false = StartupOutcome.runs productionConfig := by
  have hb : baseConfig m =
      (if m ∈ objectPrototypeKeys then JsLookup.proto else JsLookup.undef) := by
    simp [baseConfig, h1, h2]
  by_cases hm : m ∈ objectPrototypeKeys
  · have hs : startup (some m) false = StartupOutcome.runsDegraded := by
      simp [startup, selectConfig, resolveEnv, h3, hb, hm]
    exact ⟨by simp [hs], fun _ => hs, fun hc => absurd hm hc, rfl, rfl⟩
  · have hs : startup (some m) false = StartupOutcome.crash jsUndefinedAccessError := by
      simp [startup, selectConfig, resolveEnv, h3, hb, hm]
    exact ⟨by simp [hs], fun hc => absurd hc hm, fun _ => hs, rfl, rfl⟩

/-- Claim C2 witness: the amended claim instantiated at the inherited
prototype key `constructor`, where the process starts degraded but not on
the production profile. -/
theorem c2_witness :
    startup (some "constructor") false ≠ StartupOutcome.runs productionConfig ∧
      startup (some "constructor") false = StartupOutcome.runsDegraded ∧
      startup none false = StartupOutcome.runs productionConfig := by
  have h := c2_unknown_mode_no_production_fallback "constructor"
    (by decide) (by decide) (by decide)
  exact ⟨h.1, h.2.1 (by decide), h.2.2.2.1⟩

/-- Claim C3 counterexample: a non-AI tick neither samples a resource
reading nor runs the threshold evaluation, so the claim that every tick in
both modes invokes the Sampler and then the Evaluator fails on the concrete
non-AI tick below. -/
theorem c3_counterexample :
    (checkSystemHealth false halfStream productionConfig).sample = none ∧
      (checkSystemHealth false halfStream productionConfig).evalStatus = none ∧
      (checkSystemHealth false halfStream productionConfig).evalThreshold = none :=
  ⟨rfl, rfl, rfl⟩

/-- Claim C3 amended: only AI-mode ticks sample and evaluate: every AI tick
obtains a fresh resource sample and evaluates exactly that sample against
`config.alertThreshold` before the predictive steps, while every non-AI
tick performs no sampling and no threshold evaluation. -/
theorem c3_ai_tick_samples_then_evaluates (r : ℕ → ℚ) (cfg : MonitorConfig) :
    (checkSystemHealth true r cfg).sample = some (tickSample r cfg) ∧
      (checkSystemHealth true r cfg).evalStatus =
        some (evaluate (tickSample r cfg).cpu (tickSample r cfg).memory
          (tickSample r cfg).disk cfg.alertThreshold) ∧
      (checkSystemHealth true r cfg).evalThreshold = some cfg.alertThreshold ∧
      (checkSystemHealth false r cfg).sample = none ∧
      (checkSystemHealth false r cfg).evalStatus = none :=
  ⟨rfl, rfl, rfl, rfl, rfl⟩

/-- Claim C4: configuration resolution: with AI enabled the fixed AI
profile is returned for every mode; with AI disabled, production resolves
to 60000 ms, threshold 80, debug off, and development resolves to 5000 ms,
threshold 90, debug on. -/
theorem c4_config_resolution :
    (∀ m : Option String, selectConfig m true = JsLookup.own aiConfig) ∧
      aiConfig.interval = 30000 ∧
      aiConfig.alertThreshold = 75 ∧
      aiConfig.cloudProviders = some ["aws", "azure", "gcp"] ∧
      aiConfig.predictiveWindow = some 300 ∧
      aiConfig.aiEnabled = some true ∧
      selectConfig (some "production") false = JsLookup.own productionConfig ∧
      productionConfig.interval = 60000 ∧
      productionConfig.alertThreshold = 80 ∧
      productionConfig.debugMode = some false ∧
      selectConfig (some "development") false = JsLookup.own developmentConfig ∧
      developmentConfig.interval = 5000 ∧
      developmentConfig.alertThreshold = 90 ∧
      developmentConfig.debugMode = some true :=
  ⟨fun _ => rfl, rfl, rfl, rfl, rfl, rfl, rfl, rfl, rfl, rfl, rfl, rfl, rfl, rfl⟩

/-- Claim C10: every non-AI tick reports the fixed HEALTHY status with no
sample, no threshold evaluation, no auto-scaling and no events, regardless
of the configuration or the random stream; the console lines vary only with
the timestamp and the debug-mode flag. -/
theorem c10_basic_mode_fixed_healthy (cfg cfg2 : MonitorConfig) (r r2 : ℕ → ℚ)
    (ts : String) :
    (checkSystemHealth false r cfg).statusLine = "HEALTHY" ∧
      (checkSystemHealth false r cfg).sample = none ∧
      (checkSystemHealth false r cfg).evalStatus = none ∧
      (checkSystemHealth false r cfg).autoScaling = false ∧
      (checkSystemHealth false r cfg).events = [] ∧
      checkSystemHealth false r cfg = checkSystemHealth false r2 cfg2 ∧
      (truthy cfg.debugMode = truthy cfg2.debugMode →
        monitorBasicHealthLines ts cfg = monitorBasicHealthLines ts cfg2) := by
  refine ⟨rfl, rfl, rfl, rfl, rfl, rfl, ?_⟩
  intro h
  simp [monitorBasicHealthLines, h]

/-- Claim C10 witness: the debug-line implication instantiated at the
production profile against itself, under a concrete timestamp. -/
theorem c10_witness :
    monitorBasicHealthLines "2026-01-01T00:00:00Z" productionConfig =
      monitorBasicHealthLines "2026-01-01T00:00:00Z" productionConfig :=
  (c10_basic_mode_fixed_healthy productionConfig productionConfig halfStream halfStream
    "2026-01-01T00:00:00Z").2.2.2.2.2.2 rfl

theorem monitorAIHealth_events_eq (r : ℕ → ℚ) (cfg : MonitorConfig) :
    (monitorAIHealth r cfg).events =
      (if evaluate (tickSample r cfg).cpu (tickSample r cfg).memory (tickSample r cfg).disk
          cfg.alertThreshold = EvalStatus.ALERT then [EventKind.THRESHOLD_BREACH] else []) ++
      (if predictiveBreach (tickForecast r cfg) cfg.alertThreshold = true
          then [EventKind.PREDICTIVE_BREACH] else []) := rfl

/-- Claim C5: the predictive alert fires exactly when the forecast cpu
strictly exceeds `config.alertThreshold`; the check reads only the cpu of
the forecast, both evaluations in a tick use the same threshold, and the
predictive event kind is distinct from the reactive one. -/
theorem c5_predictive_breach_iff_cpu (r : ℕ → ℚ) (cfg : MonitorConfig)
    (f g : Forecast) (θ : ℚ) :
    (predictiveBreach f θ = true ↔ f.cpu > θ) ∧
      (f.cpu = g.cpu → predictiveBreach f θ = predictiveBreach g θ) ∧
      (EventKind.PREDICTIVE_BREACH ∈ (monitorAIHealth r cfg).events ↔
        (tickForecast r cfg).cpu > cfg.alertThreshold) ∧
      (monitorAIHealth r cfg).predictiveThreshold = some cfg.alertThreshold ∧
      (monitorAIHealth r cfg).evalThreshold = some cfg.alertThreshold ∧
      EventKind.PREDICTIVE_BREACH ≠ EventKind.THRESHOLD_BREACH := by
  refine ⟨by simp [predictiveBreach], ?_, ?_, rfl, rfl, by decide⟩
  · intro hcpu
    simp [predictiveBreach, hcpu]
  · rw [monitorAIHealth_events_eq]
    by_cases hb : (tickForecast r cfg).cpu > cfg.alertThreshold
    · simp [predictiveBreach, hb]
    · simp only [predictiveBreach, decide_eq_true_eq, hb, iff_false, if_false,
        List.append_nil]
      intro hmem
      split at hmem <;> simp_all

/-- Claim C5 witness: two forecasts sharing the same cpu but differing in
memory, traffic and confidence get the same predictive-breach verdict. -/
theorem c5_witness :
    predictiveBreach ⟨50, 10, 0, 80⟩ 75 = predictiveBreach ⟨50, 99, 5, 70⟩ 75 :=
  (c5_predictive_breach_iff_cpu halfStream aiConfig ⟨50, 10, 0, 80⟩ ⟨50, 99, 5, 70⟩ 75).2.1 rfl

/-- Claim C6: the scheduler performs one eager tick at time 0 and then
ticks at each interval-timer firing `T, 2T, 3T, ...`; the retrain timer is
armed exactly when AI mode is on and fires at the fixed times
`120000, 240000, ...` independent of the health-check interval. -/
theorem c6_scheduler_eager_and_retrain (env : Option String) (aiMode : Bool)
    (cfg : MonitorConfig) (h : startup env aiMode = StartupOutcome.runs cfg) (n : ℕ) :
    tickTime cfg 0 = 0 ∧
      tickTime cfg (n + 1) = setIntervalFire cfg.interval n ∧
      retrainArmed aiMode cfg = aiMode ∧
      retrainFire n = (n + 1) * 120000 := by
  refine ⟨by simp [tickTime], rfl, ?_, rfl⟩
  cases aiMode with
  | false => rfl
  | true =>
    have h2 : StartupOutcome.runs aiConfig = StartupOutcome.runs cfg := h
    have : cfg = aiConfig := (StartupOutcome.runs.inj h2).symm
    subst this
    rfl

/-- Claim C6 witness: the scheduler facts instantiated for an AI-mode run
resolved from an unset environment. -/
theorem c6_witness :
    tickTime aiConfig 0 = 0 ∧
      tickTime aiConfig 1 = setIntervalFire aiConfig.interval 0 ∧
      retrainArmed true aiConfig = true ∧
      retrainFire 0 = 120000 := by
  have h := c6_scheduler_eager_and_retrain none true aiConfig rfl 0
  simpa using h

/-- Claim C7: a forecast exists exactly on AI-mode ticks, one per tick, and
for draws in `[0,1)` its confidence lies in `[70,100]` and its traffic is
nonnegative. -/
theorem c7_forecast_bounds (r : ℕ → ℚ) (cfg : MonitorConfig) (aiMode : Bool)
    (hr : ∀ n, 0 ≤ r n ∧ r n < 1) :
    ((checkSystemHealth aiMode r cfg).forecast.isSome = aiMode) ∧
      (checkSystemHealth true r cfg).forecast = some (tickForecast r cfg) ∧
      70 ≤ (tickForecast r cfg).confidence ∧
      (tickForecast r cfg).confidence ≤ 100 ∧
      0 ≤ (tickForecast r cfg).traffic := by
  refine ⟨?_, rfl, ?_, ?_, ?_⟩
  · cases aiMode <;> rfl
  · have h := hr (3 * (cfg.cloudProviders.getD []).length + 3 + 3)
    show (70 : ℚ) ≤ r (3 * (cfg.cloudProviders.getD []).length + 3 + 3) * 30 + 70
    linarith [h.1]
  · have h := hr (3 * (cfg.cloudProviders.getD []).length + 3 + 3)
    show r (3 * (cfg.cloudProviders.getD []).length + 3 + 3) * 30 + 70 ≤ (100 : ℚ)
    linarith [h.2]
  · have h := hr (3 * (cfg.cloudProviders.getD []).length + 3 + 2)
    show (0 : ℚ) ≤ r (3 * (cfg.cloudProviders.getD []).length + 3 + 2) * 1000
    linarith [h.1]

/-- Claim C7 witness: the forecast facts instantiated at the constant
stream of draws `1/2` under the AI profile. -/
theorem c7_witness :
    (checkSystemHealth true halfStream aiConfig).forecast.isSome = true ∧
      (checkSystemHealth true halfStream aiConfig).forecast =
        some (tickForecast halfStream aiConfig) ∧
      70 ≤ (tickForecast halfStream aiConfig).confidence ∧
      (tickForecast halfStream aiConfig).confidence ≤ 100 ∧
      0 ≤ (tickForecast halfStream aiConfig).traffic := by
  have h := c7_forecast_bounds halfStream aiConfig true
    (fun _ => ⟨by norm_num [halfStream], by norm_num [halfStream]⟩)
  exact h

theorem sampleProviders_map_name (r : ℕ → ℚ) (j : ℕ) (names : List String) :
    (sampleProviders r j names).map ProviderStatus.name = names := by
  induction names generalizing j with
  | nil => rfl
  | cons name rest ih => simp [sampleProviders, providerStatus, ih]

theorem providerStatus_bounds (r : ℕ → ℚ) (i : ℕ) (name : String)
    (h0 : 0 ≤ r (3 * i)) (h1 : r (3 * i) < 1)
    (h2 : 0 ≤ r (3 * i + 1)) (h3 : r (3 * i + 1) < 1) :
    5 ≤ (providerStatus r i name).instances ∧
      (providerStatus r i name).instances < 15 ∧
      0 ≤ (providerStatus r i name).load ∧
      (providerStatus r i name).load < 100 := by
  refine ⟨?_, ?_, ?_, ?_⟩
  · show (5 : ℤ) ≤ ⌊r (3 * i) * 10 + 5⌋
    rw [Int.le_floor]
    push_cast
    linarith
  · show ⌊r (3 * i) * 10 + 5⌋ < (15 : ℤ)
    rw [Int.floor_lt]
    push_cast
    linarith
  · show (0 : ℚ) ≤ r (3 * i + 1) * 100
    linarith
  · show r (3 * i + 1) * 100 < (100 : ℚ)
    linarith

theorem sampleProviders_mem_bounds (r : ℕ → ℚ) (names : List String) (j : ℕ)
    (hr : ∀ n, 0 ≤ r n ∧ r n < 1) :
    ∀ p ∈ sampleProviders r j names,
      5 ≤ p.instances ∧ p.instances < 15 ∧ 0 ≤ p.load ∧ p.load < 100 := by
  induction names generalizing j with
  | nil => intro p hp; simp [sampleProviders] at hp
  | cons name rest ih =>
    intro p hp
    rcases List.mem_cons.mp hp with h | h
    · subst h
      exact providerStatus_bounds r j name (hr (3 * j)).1 (hr (3 * j)).2
        (hr (3 * j + 1)).1 (hr (3 * j + 1)).2
    · exact ih (j + 1) p h

/-- Claim C8: with a non-empty provider list the sampler produces exactly
one per-provider entry per listed provider in list order (entry `i` built
from draws `3i, 3i+1, 3i+2`), with instance count in `[5,15)`, load in
`[0,100)`, and healthy exactly when the third draw exceeds `0.1`. -/
theorem c8_sampler_per_provider (r : ℕ → ℚ) (names : List String) (j : ℕ)
    (hr : ∀ n, 0 ≤ r n ∧ r n < 1) :
    ((sampleProviders r 0 names).map ProviderStatus.name = names) ∧
      (∀ i, (sampleProviders r 0 names).get? i =
        (names.get? i).map (providerStatus r i)) ∧
      (∀ p ∈ sampleProviders r j names,
        5 ≤ p.instances ∧ p.instances < 15 ∧ 0 ≤ p.load ∧ p.load < 100) ∧
      (∀ i name, (providerStatus r i name).healthy = true ↔ r (3 * i + 2) > 1 / 10) := by
  refine ⟨sampleProviders_map_name r 0 names, ?_, sampleProviders_mem_bounds r names j hr, ?_⟩
  · intro i
    have h := sampleProviders_get? r 0 i names
    simpa using h
  · intro i name
    simp [providerStatus]

/-- Claim C8 witness: the per-provider facts instantiated at the constant
stream of draws `1/2` over the AI provider list. -/
theorem c8_witness :
    (sampleProviders halfStream 0 ["aws", "azure", "gcp"]).map ProviderStatus.name =
        ["aws", "azure", "gcp"] ∧
      5 ≤ (providerStatus halfStream 0 "aws").instances ∧
      (providerStatus halfStream 0 "aws").instances < 15 := by
  have h := c8_sampler_per_provider halfStream ["aws", "azure", "gcp"] 0
    (fun _ => ⟨by norm_num [halfStream], by norm_num [halfStream]⟩)
  have hm : providerStatus halfStream 0 "aws" ∈
      sampleProviders halfStream 0 ["aws", "azure", "gcp"] := by
    simp [sampleProviders]
  exact ⟨h.1, (h.2.2.1 _ hm).1, (h.2.2.1 _ hm).2.1⟩

/-- Claim C9: exactly one configuration governs a run: startup resolves a
unique config, every tick of the run reads its unchanged alert threshold
for both the reactive and the predictive evaluation, and the scheduler
spacing is its unchanged interval. -/
theorem c9_single_immutable_config (env : Option String) (aiMode : Bool)
    (cfg : MonitorConfig) (h : startup env aiMode = StartupOutcome.runs cfg)
    (rs : ℕ → ℕ → ℚ) (n k : ℕ) :
    (∀ cfg2, startup env aiMode = StartupOutcome.runs cfg2 → cfg2 = cfg) ∧
      (∀ t ∈ runTrace aiMode rs cfg n,
        t.evalThreshold = (if aiMode then some cfg.alertThreshold else none) ∧
          t.predictiveThreshold = (if aiMode then some cfg.alertThreshold else none)) ∧
      tickTime cfg (k + 1) - tickTime cfg k = cfg.interval := by
  refine ⟨?_, ?_, ?_⟩
  · intro cfg2 h2
    rw [h] at h2
    exact (StartupOutcome.runs.inj h2).symm
  · intro t ht
    simp only [runTrace, List.mem_map, List.mem_range] at ht
    obtain ⟨i, _, rfl⟩ := ht
    cases aiMode <;>
      simp [checkSystemHealth, monitorAIHealth, monitorBasicHealth]
  · simp only [tickTime, Nat.succ_mul]
    exact Nat.add_sub_cancel_left (k * cfg.interval) cfg.interval

/-- Claim C9 witness: the interval-spacing fact instantiated for a
production run resolved from an unset environment. -/
theorem c9_witness :
    tickTime productionConfig 1 - tickTime productionConfig 0 = productionConfig.interval :=
  (c9_single_immutable_config none false productionConfig rfl (fun _ => halfStream) 1 0).2.2

end Monitor
